import Mathlib

/-!
Verification development for the blackhole structured logging library.

The definitions below are a shallow embedding of the C++ sources:
`src/root.cpp` (root logger: `consume`, `filter`, the `log` overloads),
`src/formatter/string/token.cpp` and `src/datetime/generator.linux.cpp`
(timestamp placeholder and its precompiled strftime generator),
`src/blackhole/logger.hpp` (the older composite/verbose logger API) and
`include/blackhole/formatter/json.hpp` (JSON formatter).  Pieces of the
library whose implementation files are not part of this tree
(`record_t::activate`, `scoped_t::collect`, `json_t::format`,
`logger.ipp`) are modelled from the specification and marked as such in
their doc comments.
-/

namespace Blackhole

/-- Tagged attribute value (`blackhole::attribute::value_t`); the
floating-point alternative is irrelevant to the claims studied here and
is omitted. -/
inductive AttrValue
  | vnull
  | vbool (b : Bool)
  | vsint (i : Int)
  | vuint (n : Nat)
  | vstr (s : String)
deriving DecidableEq, Repr

/-- One attribute layer: an ordered list of name/value pairs
(`blackhole::attribute_list` viewed through `attribute::view_t`). -/
abbrev Layer := List (String × AttrValue)

/-- `attribute_pack`: an ordered stack of attribute layers. -/
abbrev Pack := List Layer

/-- A thrown C++ exception as the logger observes it: either a
`std::exception` carrying a `what()` string, or anything else. -/
inductive Exn
  | stdExn (what : String)
  | unknown
deriving DecidableEq, Repr

/-- `blackhole::record_t` as used by the root logger: severity, message
view, referenced attribute layers, and the optional formatted view set by
`activate`. -/
structure RecordR where
  severity : Int
  message : String
  attributes : Pack
  formatted : Option String
deriving DecidableEq, Repr

/-- `filter_t = std::function<bool(const record_t&)>`; the callable may
throw, which the `Except` models. -/
abbrev FilterFn := RecordR → Except Exn Bool

/-- `handler_t::execute`; may throw. -/
abbrev HandlerFn := RecordR → Except Exn Unit

/-- Modelled from the spec: `record_t::activate` is implemented in
`src/record.cpp`, which is not part of this tree.  Per the spec the
two-argument `log` (which activates with the null view produced by
`null_format_t`) emits the message verbatim, so a `none` view publishes
the raw message; a real view publishes the rendered bytes. -/
def activate (r : RecordR) (v : Option String) : RecordR :=
  match v with
  | none => { r with formatted := some r.message }
  | some s => { r with formatted := some s }

/-- Modelled from the spec: `scoped_t::collect` is implemented in
`src/scoped.cpp`, which is not part of this tree.  Per the spec the
scoped stack's layers are prepended onto the attribute pack it is handed
(`root.cpp` hands it `&pack`, the caller's pack). -/
def collect (scopedCtx : Option Pack) (pack : Pack) : Pack :=
  match scopedCtx with
  | none => pack
  | some layers => layers ++ pack

/-- Events observable during one `root_logger_t::consume` call. -/
inductive Ev
  | fmtCall
  | activateEv (r : RecordR)
  | execEv (idx : Nat)
deriving DecidableEq, Repr

/-- Diagnostic line written by `consume`'s per-handler catch clauses. -/
def diagnostic : Exn → String
  | .stdExn w => "logging core error occurred: " ++ w
  | .unknown => "logging core error occurred: unknown"

/-- The handler fan-out loop of `consume` (root.cpp lines 178-186): each
handler's `execute` is tried in order; a thrown exception is turned into
a diagnostic line on `std::cout` and the loop continues.  Returns the
events and the stdout lines, numbering handlers from `i`. -/
def handlerLoop (r : RecordR) (i : Nat) : List HandlerFn → List Ev × List String
  | [] => ([], [])
  | h :: rest =>
    let tail := handlerLoop r (i + 1) rest
    match h r with
    | .ok _ => (.execEv i :: tail.1, tail.2)
    | .error e => (.execEv i :: tail.1, diagnostic e :: tail.2)

/-- Result of one `consume` call: the observable event trace, the lines
written to the process's standard output and standard error streams, the
activated record handed to the handlers (if any), the exception escaping
to the caller (if any), and the caller's attribute pack as it stands
after the call (root.cpp passes the caller's pack itself to `collect`). -/
structure ConsumeResult where
  events : List Ev
  stdoutLines : List String
  stderrLines : List String
  dispatched : Option RecordR
  thrown : Option Exn
  pack : Pack
deriving DecidableEq, Repr

/-- `root_logger_t::consume` (root.cpp lines 156-188) with the inner
snapshot's filter and handlers already captured (the code copies
`inner.filter` under the inner lock before anything else).  `fn`
abstracts the format functor: `null_format_t` is `.ok none` (a null
`string_view`), `real_format_t` yields the rendered bytes or throws.
The filter call and the format call sit outside any try-block; only the
per-handler `execute` is wrapped, and its diagnostics go to `std::cout`. -/
def consume (scopedCtx : Option Pack) (filt : FilterFn) (handlers : List HandlerFn)
    (severity : Int) (message : String) (pack : Pack)
    (fn : Except Exn (Option String)) : ConsumeResult :=
  let pack1 := collect scopedCtx pack
  let record : RecordR := ⟨severity, message, pack1, none⟩
  match filt record with
  | .error e => ⟨[], [], [], none, some e, pack1⟩
  | .ok false => ⟨[], [], [], none, none, pack1⟩
  | .ok true =>
    match fn with
    | .error e => ⟨[.fmtCall], [], [], none, some e, pack1⟩
    | .ok v =>
      let rec1 := activate record v
      let out := handlerLoop rec1 0 handlers
      ⟨.fmtCall :: .activateEv rec1 :: out.1, out.2, [], some rec1, none, pack1⟩

/-- `root_logger_t::log(int, string_view, attribute_pack&)`: uses
`null_format_t`. -/
def logPack (scopedCtx : Option Pack) (filt : FilterFn) (handlers : List HandlerFn)
    (severity : Int) (message : String) (pack : Pack) : ConsumeResult :=
  consume scopedCtx filt handlers severity message pack (.ok none)

/-- `root_logger_t::log(int, string_view)`: constructs an empty pack and
forwards to the pack overload. -/
def logPlain (scopedCtx : Option Pack) (filt : FilterFn) (handlers : List HandlerFn)
    (severity : Int) (message : String) : ConsumeResult :=
  logPack scopedCtx filt handlers severity message []

/-- `root_logger_t::log(int, string_view, attribute_pack&, const format_t&)`:
uses `real_format_t`, whose invocation returns the writer's bytes or
throws. -/
def logFmt (scopedCtx : Option Pack) (filt : FilterFn) (handlers : List HandlerFn)
    (severity : Int) (message : String) (pack : Pack)
    (fnResult : Except Exn String) : ConsumeResult :=
  consume scopedCtx filt handlers severity message pack (fnResult.map some)

/-- `root_logger_t::inner_t`: the shared inner state, a filter plus a
`const` vector of handlers. -/
structure InnerT where
  filter : FilterFn
  handlers : List HandlerFn

/-- The heap of `inner_t` objects reachable through `shared_ptr`s;
addresses are natural numbers. -/
structure Heap where
  store : Nat → InnerT

/-- `root_logger_t`: holds `this->inner`, a `shared_ptr<inner_t>`,
modelled as the address of the shared object. -/
structure RootLogger where
  inner : Nat

/-- Write through an address: the effect of mutating the pointed-to
`inner_t`. -/
def Heap.update (h : Heap) (p : Nat) (f : InnerT → InnerT) : Heap :=
  ⟨fun q => if q = p then f (h.store p) else h.store q⟩

/-- `root_logger_t::filter(filter_t)` (root.cpp lines 105-114): load the
shared pointer (`sync->load`), assign the new filter through it in place
(`inner->apply`), and store the same pointer back (`sync->store`).  No
clone of the inner state is made. -/
def setFilter (h : Heap) (lg : RootLogger) (f : FilterFn) : Heap × RootLogger :=
  let p := lg.inner
  let h1 := h.update p (fun s => { s with filter := f })
  (h1, { lg with inner := p })

/-- The snapshot-capture phase of `consume`: it loads `this->inner` and
copies the filter out of the shared object under the inner lock. -/
def consumeCapture (h : Heap) (lg : RootLogger) : Nat × FilterFn :=
  (lg.inner, (h.store lg.inner).filter)

/-- The remainder of `consume` after capture: it uses the captured filter
copy and reads the handlers through the captured pointer from the current
heap. -/
def consumeRest (h : Heap) (cap : Nat × FilterFn) (scopedCtx : Option Pack)
    (severity : Int) (message : String) (pack : Pack)
    (fn : Except Exn (Option String)) : ConsumeResult :=
  consume scopedCtx cap.2 (h.store cap.1).handlers severity message pack fn

/-- A whole `consume` against the heap: capture, then the rest, with no
interleaved writer. -/
def rootConsume (h : Heap) (lg : RootLogger) (scopedCtx : Option Pack)
    (severity : Int) (message : String) (pack : Pack)
    (fn : Except Exn (Option String)) : ConsumeResult :=
  consumeRest h (consumeCapture h lg) scopedCtx severity message pack fn

/-! ### Datetime generator (`src/datetime/generator.linux.cpp`) and the
timestamp placeholder (`src/formatter/string/token.cpp`). -/

/-- Token of the precompiled strftime generator (`literal_t` /
`usecond_t`). -/
inductive DToken
  | lit (s : String)
  | usec
deriving DecidableEq, Repr

/-- Decimal digit character. -/
def digitChar (d : Nat) : Char := Char.ofNat (48 + d)

/-- Decimal digits of `n`, most significant first; `fuel`-driven
recursion, `fuel > n` suffices. -/
def decDigitsAux : Nat → Nat → List Char
  | 0, _ => []
  | fuel + 1, n =>
    if n < 10 then [digitChar n]
    else decDigitsAux fuel (n / 10) ++ [digitChar (n % 10)]

/-- Decimal representation of `n` (no leading zeros; `"0"` for zero). -/
def decDigits (n : Nat) : List Char := decDigitsAux (n + 1) n

/-- `fmt` semantics of the `{:06d}` spec used by the `usecond_t` visitor:
the decimal representation zero-padded on the left to width at least 6. -/
def pad6 (n : Nat) : String :=
  ⟨List.replicate (6 - (decDigits n).length) '0' ++ decDigits n⟩

/-- Numeric value of a digit string (for stating that `pad6` prints the
microseconds value). -/
def digitsVal (cs : List Char) : Nat :=
  cs.foldl (fun a c => 10 * a + (c.toNat - 48)) 0

/-- `generator_t::generator_t` (generator.linux.cpp lines 47-67): scan
the pattern; at each `"%f"` flush the accumulated literal (even when
empty) followed by a `usec` token and skip two characters; at the end
flush the accumulator only when non-empty. -/
def compileGen : List Char → String → List DToken
  | [], acc => if acc = "" then [] else [.lit acc]
  | '%' :: 'f' :: rest, acc => .lit acc :: .usec :: compileGen rest ""
  | c :: rest, acc => compileGen rest (acc.push c)

/-- Rendering of a precompiled token list by `generator_t::operator()`
with `visitor_t` (generator.linux.cpp lines 23-43, 71-79): a literal
token goes through the platform `strftime` (abstracted as `strf`, the
`tm` argument being fixed); a `usec` token prints `{:06d}` of the
microseconds value. -/
def renderTokens (strf : String → String) (u : Nat) : List DToken → String
  | [] => ""
  | .lit s :: ts => strf s ++ renderTokens strf u ts
  | .usec :: ts => pad6 u ++ renderTokens strf u ts

/-- Direct interpretation of a strftime-style pattern, following the
spec's words: each occurrence of `%f` expands to six-digit zero-padded
microseconds, and every maximal `%f`-free chunk is rendered through the
platform `strftime`. -/
def directRender (strf : String → String) (u : Nat) : List Char → String → String
  | [], acc => if acc = "" then "" else strf acc
  | '%' :: 'f' :: rest, acc =>
    (if acc = "" then "" else strf acc) ++ pad6 u ++ directRender strf u rest ""
  | c :: rest, acc => directRender strf u rest (acc.push c)

/-- The default strftime-style pattern of the user timestamp
placeholder. -/
def defaultTimestampPattern : String := "%Y-%m-%d %H:%M:%S.%f"

/-- `placeholder::timestamp<user>`: pattern, format spec, and the
generator precompiled from the pattern. -/
structure TimestampUser where
  pattern : String
  spec : String
  generator : List DToken
deriving DecidableEq, Repr

/-- `timestamp<user>::timestamp()` (token.cpp lines 45-49). -/
def timestampUserDefault : TimestampUser :=
  { pattern := defaultTimestampPattern
    spec := "{}"
    generator := compileGen defaultTimestampPattern.data "" }

/-- `timestamp<user>::timestamp(std::string, std::string)` (token.cpp
lines 51-55): an empty pattern falls back to the default; the generator
is compiled from the stored pattern. -/
def timestampUserMk (pattern spec : String) : TimestampUser :=
  let p := if pattern = "" then defaultTimestampPattern else pattern
  { pattern := p, spec := spec, generator := compileGen p.data "" }

/-! ### The older composite/verbose logger API
(`src/blackhole/logger.hpp`). -/

/-- `attribute::set_t`: one ordered list of attributes. -/
abbrev AttrSet := List (String × AttrValue)

/-- `composite_logger_t<T, FilterArgs...>` state (logger.hpp lines
47-76): the enabled flag, the filter over a combined attribute view plus
the extra filter arguments `α`, and the thread's scoped attribute stack
reachable through `scope_feature_t`. -/
structure CompositeV0 (α : Type) where
  enabled : Bool
  filter : AttrSet → α → Bool
  scopedCtx : Option AttrSet

/-- `composite_logger_t::composite_logger_t(filter_type)` (logger.hpp
lines 72-76): `d.enabled = true`. -/
def mkComposite (f : AttrSet → α → Bool) : CompositeV0 α :=
  { enabled := true, filter := f, scopedCtx := none }

/-- `composite_logger_t::enabled(bool)` (logger.hpp lines 88-90). -/
def setEnabled (lg : CompositeV0 α) (b : Bool) : CompositeV0 α :=
  { lg with enabled := b }

/-- Modelled from the spec: `with_scoped` (implemented in `logger.ipp`,
not part of this tree) combines the external attributes with the
thread's scoped attributes into one view. -/
def combinedView (external : AttrSet) (sc : Option AttrSet) : AttrSet :=
  external ++ sc.getD []

/-- Outcome of `composite_logger_t::open_record` (logger.hpp lines
115-131): the record (`none` models `record_t::invalid()`, carrying the
internal and external attribute sets otherwise), whether the filter
predicate was evaluated, and whether the attribute sets were populated. -/
structure OpenOutcome where
  record : Option (AttrSet × AttrSet)
  filterEvaluated : Bool
  populated : Bool
deriving DecidableEq, Repr

/-- `composite_logger_t::open_record(attribute::set_t, FilterArgs...)`
(logger.hpp lines 115-131): bail out invalid while disabled, before
taking the lock, evaluating the filter or populating anything; then
evaluate the filter on the combined view; on reject return invalid;
otherwise populate the internal set (intrinsics plus the subclass's
additions, `populateAdditional`) and the external set (scoped merge,
modelled from the spec since `logger.ipp` is not part of this tree) and
build the record. -/
def openRecordWith (lg : CompositeV0 α)
    (populateAdditional : AttrSet → α → AttrSet)
    (external : AttrSet) (args : α) : OpenOutcome :=
  if lg.enabled = false then ⟨none, false, false⟩
  else if lg.filter (combinedView external lg.scopedCtx) args = false then
    ⟨none, true, false⟩
  else
    let internal := populateAdditional [] args
    let external1 := external ++ lg.scopedCtx.getD []
    ⟨some (internal, external1), true, true⟩

/-- `verbose_logger_t<Level>::default_filter` (logger.hpp lines
226-233): accept iff the underlying value of the record's level is at
least the underlying value of the threshold; the view is ignored. -/
def defaultFilter (threshold : Int) : AttrSet → Int → Bool :=
  fun _ level => decide (threshold ≤ level)

/-- `verbose_logger_t::populate_additional` (logger.hpp lines 222-224):
emplace the severity keyword attribute. -/
def verbosePopulate (internal : AttrSet) (level : Int) : AttrSet :=
  internal ++ [("severity", AttrValue.vsint level)]

/-- `verbose_logger_t<Level>::verbose_logger_t(level_type)` (logger.hpp
lines 187-190): the base is constructed with `default_filter{level}`. -/
def mkVerbose (threshold : Int) : CompositeV0 Int :=
  mkComposite (defaultFilter threshold)

/-- `verbose_logger_t::open_record(level, external)` (logger.hpp lines
217-219): forwards to the base's `open_record` with the level as the
filter argument. -/
def openRecordVerbose (lg : CompositeV0 Int) (level : Int)
    (external : AttrSet) : OpenOutcome :=
  openRecordWith lg verbosePopulate external level

/-! ### JSON formatter (`include/blackhole/formatter/json.hpp`).
The implementation (`src/formatter/json.cpp`) is not part of this tree;
the default-configured formatter is modelled from the spec (§4.5): a
flat compact JSON object holding the intrinsics `message`, `severity`,
`timestamp` (integer microseconds since epoch), `process` (integer
pid), `thread` (integer or hex-string id), followed by the record's
attributes. -/

/-- A JSON leaf value as emitted by the default-configured formatter. -/
inductive JLeaf
  | jstr (s : String)
  | jint (n : Int)
deriving DecidableEq, Repr

/-- Thread identifier: an integer on some platforms, a hex string on
others. -/
abbrev ThreadId := Sum Int String

/-- The record data the JSON formatter consumes: message, severity, the
wall-clock timestamp split into seconds and the sub-second microseconds,
pid, tid and the attributes. -/
structure RecordJ where
  message : String
  severity : Int
  timestampSec : Nat
  timestampUsec : Nat
  pid : Int
  tid : ThreadId
  attributes : List (String × AttrValue)
deriving DecidableEq, Repr

/-- Microseconds since epoch of a record's wall-clock instant. -/
def usecSinceEpoch (r : RecordJ) : Nat :=
  r.timestampSec * 1000000 + r.timestampUsec

/-- JSON leaf for a thread id: integer, or hex string. -/
def threadLeaf : ThreadId → JLeaf
  | .inl n => .jint n
  | .inr s => .jstr s

/-- JSON leaf for an attribute value. -/
def attrLeaf : AttrValue → JLeaf
  | .vnull => .jstr "null"
  | .vbool b => .jstr (if b then "true" else "false")
  | .vsint i => .jint i
  | .vuint n => .jint n
  | .vstr s => .jstr s

/-- Modelled from the spec: `json_t::format` with the default
configuration (no routing, no renames, `unique` and `newline` off)
builds a flat object with the intrinsics first, then the record's
attributes (§4.5, intrinsic value table). -/
def jsonFormatDefault (r : RecordJ) : List (String × JLeaf) :=
  [("message", .jstr r.message),
   ("severity", .jint r.severity),
   ("timestamp", .jint (usecSinceEpoch r)),
   ("process", .jint r.pid),
   ("thread", threadLeaf r.tid)]
  ++ r.attributes.map (fun kv => (kv.1, attrLeaf kv.2))

/-- Compact serialization of a JSON leaf. -/
def serLeaf : JLeaf → String
  | .jstr s => "\"" ++ s ++ "\""
  | .jint n => toString n

/-- Compact serialization of a flat JSON object: no whitespace, fields
in insertion order. -/
def serObj (fields : List (String × JLeaf)) : String :=
  "\x7b"
  ++ String.intercalate "," (fields.map fun kv => "\"" ++ kv.1 ++ "\":" ++ serLeaf kv.2)
  ++ "\x7d"

/-! ### Helper definitions for stating the claims. -/

/-- Always-accepting filter (the default filter of `inner_t`). -/
def acceptAll : FilterFn := fun _ => Except.ok true

/-- Always-rejecting filter. -/
def rejectAll : FilterFn := fun _ => Except.ok false

/-- A one-object heap whose inner state holds the default filter and no
handlers. -/
def heap0 : Heap := ⟨fun _ => { filter := acceptAll, handlers := [] }⟩

/-- A root logger whose `inner` pointer is address 0. -/
def logger0 : RootLogger := ⟨0⟩

/-- A small concrete record. -/
def record0 : RecordR := ⟨0, "", [], none⟩

/-- The indices of the handler-execution events of a trace, in order. -/
def execIndices (evs : List Ev) : List Nat :=
  evs.filterMap fun e =>
    match e with
    | .execEv i => some i
    | _ => none

/-- The diagnostic lines the fan-out loop produces for a record: one per
throwing handler, in handler order. -/
def diagLines (handlers : List HandlerFn) (r : RecordR) : List String :=
  handlers.filterMap fun h =>
    match h r with
    | .error e => some (diagnostic e)
    | .ok _ => none

/-! ### Helper lemmas. -/

theorem handlerLoop_spec (r : RecordR) :
    ∀ (handlers : List HandlerFn) (i : Nat),
      execIndices (handlerLoop r i handlers).1 = List.range' i handlers.length ∧
      (handlerLoop r i handlers).2 = diagLines handlers r := by
  intro handlers
  induction handlers with
  | nil => intro i; simp [handlerLoop, execIndices, diagLines]
  | cons h rest ih =>
    intro i
    cases hh : h r with
    | ok u =>
      simpa [handlerLoop, execIndices, diagLines, hh, List.range'] using ih (i + 1)
    | error e =>
      simpa [handlerLoop, execIndices, diagLines, hh, List.range'] using ih (i + 1)

/-! ### Claim C1. -/

/-- C1 (corrected): `root_logger_t::filter` does not clone the inner
state.  It loads the shared pointer, substitutes the filter in the
pointed-to object in place (under the inner lock) and stores the same
pointer back: (a) the published pointer is unchanged, (b) the shared
object's filter is replaced in place, (c) the `const` handler list of
every inner object is untouched, and (d) a log call that captured its
snapshot pointer and filter copy before the swap behaves exactly as if
the swap had not happened — it keeps using its captured filter and the
unchanged handlers. -/
theorem c1_set_filter_in_place :
    (∀ (h : Heap) (lg : RootLogger) (f : FilterFn),
      (setFilter h lg f).2.inner = lg.inner) ∧
    (∀ (h : Heap) (lg : RootLogger) (f : FilterFn),
      ((setFilter h lg f).1.store lg.inner).filter = f) ∧
    (∀ (h : Heap) (lg : RootLogger) (f : FilterFn) (q : Nat),
      ((setFilter h lg f).1.store q).handlers = (h.store q).handlers) ∧
    (∀ (h : Heap) (lg : RootLogger) (f : FilterFn) (scopedCtx : Option Pack)
      (sev : Int) (msg : String) (pack : Pack) (fn : Except Exn (Option String)),
      consumeRest (setFilter h lg f).1 (consumeCapture h lg) scopedCtx sev msg pack fn
        = rootConsume h lg scopedCtx sev msg pack fn) := by
  refine ⟨fun h lg f => rfl, fun h lg f => ?_, fun h lg f q => ?_, ?_⟩
  · simp [setFilter, Heap.update]
  · simp only [setFilter, Heap.update]
    by_cases hq : q = lg.inner <;> simp [hq]
  · intro h lg f scopedCtx sev msg pack fn
    simp [consumeRest, consumeCapture, rootConsume, setFilter, Heap.update]

/-- C1, the claim as stated is false at a concrete input: after
`filter(rejectAll)` the very inner-state object that a concurrently
running log call would have captured (the one at the logger's `inner`
address) answers differently, i.e. it was not left unchanged. -/
theorem c1_claim_counterexample :
    ((setFilter heap0 logger0 rejectAll).1.store logger0.inner).filter record0
      ≠ (heap0.store logger0.inner).filter record0 := by
  simp [setFilter, Heap.update, heap0, logger0, rejectAll, acceptAll, record0]

/-! ### Claim C2. -/

/-- C2 (corrected): for every log call whose filter accepts and whose
format step succeeds, every handler's `execute` is invoked exactly once
in order regardless of thrown exceptions, no exception escapes the call,
and each throwing handler yields one short diagnostic line — written to
the process's standard output stream (`std::cout` in root.cpp lines
181-185), while nothing is written to standard error. -/
theorem c2_handler_errors_contained (scopedCtx : Option Pack) (filt : FilterFn)
    (handlers : List HandlerFn) (sev : Int) (msg : String) (pack : Pack)
    (v : Option String)
    (hacc : filt ⟨sev, msg, collect scopedCtx pack, none⟩ = .ok true) :
    (consume scopedCtx filt handlers sev msg pack (.ok v)).thrown = none ∧
    (consume scopedCtx filt handlers sev msg pack (.ok v)).stderrLines = [] ∧
    execIndices (consume scopedCtx filt handlers sev msg pack (.ok v)).events
      = List.range handlers.length ∧
    (consume scopedCtx filt handlers sev msg pack (.ok v)).stdoutLines
      = diagLines handlers (activate ⟨sev, msg, collect scopedCtx pack, none⟩ v) := by
  have hspec := handlerLoop_spec (activate ⟨sev, msg, collect scopedCtx pack, none⟩ v)
    handlers 0
  simp only [consume, hacc]
  refine ⟨trivial, trivial, ?_, ?_⟩
  · simpa [execIndices, List.range_eq_range'] using hspec.1
  · exact hspec.2

/-- C2 witness: a concrete call with one throwing handler followed by a
healthy one. -/
theorem c2_witness :
    (consume none acceptAll
        [fun _ => Except.error (.stdExn "boom"), fun _ => Except.ok ()]
        0 "m" [] (.ok none)).thrown = none ∧
    (consume none acceptAll
        [fun _ => Except.error (.stdExn "boom"), fun _ => Except.ok ()]
        0 "m" [] (.ok none)).stderrLines = [] ∧
    execIndices (consume none acceptAll
        [fun _ => Except.error (.stdExn "boom"), fun _ => Except.ok ()]
        0 "m" [] (.ok none)).events
      = List.range ([fun _ => Except.error (.stdExn "boom"),
          fun _ => Except.ok ()] : List HandlerFn).length ∧
    (consume none acceptAll
        [fun _ => Except.error (.stdExn "boom"), fun _ => Except.ok ()]
        0 "m" [] (.ok none)).stdoutLines
      = diagLines [fun _ => Except.error (.stdExn "boom"), fun _ => Except.ok ()]
          (activate ⟨0, "m", collect none [], none⟩ none) :=
  c2_handler_errors_contained none acceptAll
    [fun _ => Except.error (.stdExn "boom"), fun _ => Except.ok ()]
    0 "m" [] none rfl

/-- C2, the claim as stated is false at a concrete input: a handler
throws, yet the standard error stream receives nothing — the diagnostic
goes to standard output. -/
theorem c2_claim_counterexample :
    (consume none acceptAll [fun _ => Except.error (.stdExn "boom")]
        0 "m" [] (.ok none)).stderrLines = [] ∧
    (consume none acceptAll [fun _ => Except.error (.stdExn "boom")]
        0 "m" [] (.ok none)).stdoutLines
      = ["logging core error occurred: boom"] := by
  constructor <;> rfl

/-! ### Claim C3. -/

/-- C3 (confirmed): when the installed filter returns `false` for the
constructed record, `consume` returns immediately: no event is emitted —
the user format functor is not invoked, `record.activate` is not called,
no handler's `execute` runs — nothing is written to either stream, no
record is dispatched and nothing is thrown. -/
theorem c3_filter_reject_returns_immediately (scopedCtx : Option Pack)
    (filt : FilterFn) (handlers : List HandlerFn) (sev : Int) (msg : String)
    (pack : Pack) (fn : Except Exn (Option String))
    (hrej : filt ⟨sev, msg, collect scopedCtx pack, none⟩ = .ok false) :
    consume scopedCtx filt handlers sev msg pack fn
      = ⟨[], [], [], none, none, collect scopedCtx pack⟩ := by
  simp only [consume, hrej]

/-- C3 witness: a concrete call under the rejecting filter. -/
theorem c3_witness :
    consume none rejectAll [fun _ => Except.ok ()] 3 "msg" [[("k", .vsint 1)]]
        (.ok none)
      = ⟨[], [], [], none, none, collect none [[("k", .vsint 1)]]⟩ :=
  c3_filter_reject_returns_immediately none rejectAll [fun _ => Except.ok ()]
    3 "msg" [[("k", .vsint 1)]] (.ok none) rfl

/-! ### Claim C4. -/

/-- C4 (confirmed): exceptions thrown by the filter predicate or by the
user format callback are not caught by `consume`: in either case the log
call aborts with no handler invoked, no record activated and nothing
written, and the exception escapes to the caller of `log`. -/
theorem c4_filter_and_format_exceptions_propagate (scopedCtx : Option Pack)
    (filt : FilterFn) (handlers : List HandlerFn) (sev : Int) (msg : String)
    (pack : Pack) (e : Exn) :
    (filt ⟨sev, msg, collect scopedCtx pack, none⟩ = .error e →
      ∀ fn, consume scopedCtx filt handlers sev msg pack fn
        = ⟨[], [], [], none, some e, collect scopedCtx pack⟩) ∧
    (filt ⟨sev, msg, collect scopedCtx pack, none⟩ = .ok true →
      consume scopedCtx filt handlers sev msg pack (.error e)
        = ⟨[.fmtCall], [], [], none, some e, collect scopedCtx pack⟩) := by
  constructor
  · intro hthrow fn
    simp only [consume, hthrow]
  · intro hacc
    simp only [consume, hacc]

/-- C4 witness: a throwing filter, and a throwing format callback under
an accepting filter, at concrete inputs. -/
theorem c4_witness :
    consume none (fun _ => Except.error (.stdExn "filter blew up")) [] 1 "m" []
        (.ok none)
      = ⟨[], [], [], none, some (.stdExn "filter blew up"), collect none []⟩ ∧
    consume none acceptAll [] 1 "m" [] (.error .unknown)
      = ⟨[.fmtCall], [], [], none, some .unknown, collect none []⟩ :=
  ⟨(c4_filter_and_format_exceptions_propagate none
      (fun _ => Except.error (.stdExn "filter blew up")) [] 1 "m" []
      (.stdExn "filter blew up")).1 rfl (.ok none),
   (c4_filter_and_format_exceptions_propagate none acceptAll [] 1 "m" []
      .unknown).2 rfl⟩

/-! ### Claim C5. -/

/-- C5 (confirmed): the two-argument `log(severity, message)` is exactly
`log(severity, message, pack)` with an empty attribute pack, and — the
filter accepting — the record dispatched to the handlers carries the
message itself as its formatted view: the message is emitted verbatim. -/
theorem c5_plain_log_verbatim (scopedCtx : Option Pack) (filt : FilterFn)
    (handlers : List HandlerFn) (sev : Int) (msg : String)
    (hacc : filt ⟨sev, msg, collect scopedCtx [], none⟩ = .ok true) :
    logPlain scopedCtx filt handlers sev msg
      = logPack scopedCtx filt handlers sev msg [] ∧
    (logPlain scopedCtx filt handlers sev msg).dispatched
      = some ⟨sev, msg, collect scopedCtx [], some msg⟩ := by
  refine ⟨rfl, ?_⟩
  simp only [logPlain, logPack, consume, hacc]
  rfl

/-- C5 witness: a concrete two-argument log call. -/
theorem c5_witness :
    logPlain none acceptAll [] 2 "hello" = logPack none acceptAll [] 2 "hello" [] ∧
    (logPlain none acceptAll [] 2 "hello").dispatched
      = some ⟨2, "hello", collect none [], some "hello"⟩ :=
  c5_plain_log_verbatim none acceptAll [] 2 "hello" rfl

/-! ### Claim C8. -/

/-- C8 (corrected): `consume` hands the caller's attribute pack itself to
the scoped stack's `collect`; when a scoped stack exists its layers are
prepended onto the caller's pack object, which therefore holds the
scoped layers in front of its original layers after the log call returns
(it is not restored); only with no scoped stack is the pack left
unchanged. -/
theorem c8_scoped_layers_mutate_callers_pack (scopedLayers : Pack)
    (filt : FilterFn) (handlers : List HandlerFn) (sev : Int) (msg : String)
    (pack : Pack) (fn : Except Exn (Option String)) :
    (consume (some scopedLayers) filt handlers sev msg pack fn).pack
      = scopedLayers ++ pack ∧
    (consume none filt handlers sev msg pack fn).pack = pack := by
  constructor <;>
    · simp only [consume, collect]
      rcases filt _ with e | b
      · rfl
      · rcases b with _ | _
        · rfl
        · rcases fn with e | v
          · rfl
          · rfl

/-- C8, the claim as stated is false at a concrete input: with one
scoped layer in place, the caller's (empty) pack is no longer empty when
the log call returns. -/
theorem c8_claim_counterexample :
    (logPack (some [[("scope", .vstr "s")]]) acceptAll [] 0 "m" []).pack ≠ [] := by
  simp [logPack, consume, collect, acceptAll]

/-! ### Claim C9. -/

/-- C9 (confirmed): on an enabled `verbose_logger_t` whose filter is the
`default_filter` installed by the constructor for threshold `T`,
`open_record(level)` yields a valid record exactly when the underlying
value of `level` is at least the underlying value of `T`. -/
theorem c9_verbose_default_filter_threshold (lg : CompositeV0 Int)
    (threshold level : Int) (external : AttrSet)
    (hen : lg.enabled = true) (hf : lg.filter = defaultFilter threshold) :
    (openRecordVerbose lg level external).record.isSome = true ↔
      threshold ≤ level := by
  simp only [openRecordVerbose, openRecordWith, hen, hf, defaultFilter]
  split
  · simp_all
  · split
    · rename_i hlt
      simp at hlt
      simp only [Option.isSome_none, Bool.false_eq_true, false_iff]
      omega
    · rename_i hlt
      simp at hlt
      simp only [Option.isSome_some, true_iff]
      omega

/-! ### Digit lemmas for the `{:06d}` microseconds rendering. -/

theorem digitChar_toNat : ∀ d : Nat, d < 10 → (digitChar d).toNat = 48 + d := by
  decide

theorem digitChar_isDigit : ∀ d : Nat, d < 10 → (digitChar d).isDigit = true := by
  decide

theorem digitsVal_append_one (cs : List Char) (c : Char) :
    digitsVal (cs ++ [c]) = 10 * digitsVal cs + (c.toNat - 48) := by
  simp [digitsVal, List.foldl_append]

theorem decDigitsAux_val :
    ∀ (fuel n : Nat), n < fuel → digitsVal (decDigitsAux fuel n) = n := by
  intro fuel
  induction fuel with
  | zero => intro n h; omega
  | succ fuel ih =>
    intro n h
    by_cases h10 : n < 10
    · simp [decDigitsAux, h10, digitsVal, digitChar_toNat n h10]
    · have hdiv : n / 10 < fuel := by
        have h1 : n / 10 < n := Nat.div_lt_self (by omega) (by omega)
        omega
      simp [decDigitsAux, h10, digitsVal_append_one, ih _ hdiv,
        digitChar_toNat (n % 10) (Nat.mod_lt n (by omega))]
      omega

theorem decDigitsAux_len :
    ∀ (fuel n k : Nat), n < fuel → n < 10 ^ k → 0 < k →
      (decDigitsAux fuel n).length ≤ k := by
  intro fuel
  induction fuel with
  | zero => intro n k h; omega
  | succ fuel ih =>
    intro n k h hk hk0
    by_cases h10 : n < 10
    · simp [decDigitsAux, h10]; omega
    · have hk2 : 2 ≤ k := by
        by_contra hc
        have hone : k = 1 := by omega
        simp [hone] at hk; omega
      have hdiv : n / 10 < fuel := by
        have h1 : n / 10 < n := Nat.div_lt_self (by omega) (by omega)
        omega
      have hdivk : n / 10 < 10 ^ (k - 1) := by
        rw [Nat.div_lt_iff_lt_mul (by omega : 0 < 10)]
        have hpow : 10 ^ (k - 1) * 10 = 10 ^ k := by
          rw [← pow_succ]
          congr 1
          omega
        omega
      have := ih (n / 10) (k - 1) hdiv hdivk (by omega)
      simp [decDigitsAux, h10]
      omega

theorem decDigitsAux_digits :
    ∀ (fuel n : Nat), n < fuel →
      ∀ c ∈ decDigitsAux fuel n, c.isDigit = true := by
  intro fuel
  induction fuel with
  | zero => intro n h; omega
  | succ fuel ih =>
    intro n h c hc
    by_cases h10 : n < 10
    · simp [decDigitsAux, h10] at hc
      subst hc
      exact digitChar_isDigit n h10
    · have hdiv : n / 10 < fuel := by
        have h1 : n / 10 < n := Nat.div_lt_self (by omega) (by omega)
        omega
      simp [decDigitsAux, h10] at hc
      rcases hc with hc | hc
      · exact ih _ hdiv c hc
      · subst hc
        exact digitChar_isDigit _ (Nat.mod_lt n (by omega))

theorem digitsVal_zeros (j : Nat) (ds : List Char) :
    digitsVal (List.replicate j '0' ++ ds) = digitsVal ds := by
  induction j with
  | zero => simp
  | succ j ih =>
    simp only [List.replicate_succ, List.cons_append, digitsVal, List.foldl_cons]
    simpa [digitsVal] using ih

/-- The `%f`-compilation/rendering agreement, generalized over the
literal accumulator. -/
theorem renderTokens_compileGen (strf : String → String) (u : Nat)
    (hs : strf "" = "") :
    ∀ (p : List Char) (acc : String),
      renderTokens strf u (compileGen p acc) = directRender strf u p acc := by
  intro p acc
  induction p, acc using compileGen.induct with
  | case1 => simp [compileGen, directRender, renderTokens]
  | case2 acc hacc => simp [compileGen, directRender, renderTokens, hacc]
  | case3 rest acc ih =>
    by_cases hacc : acc = "" <;>
      simp [compileGen, directRender, renderTokens, hacc, ih, hs,
        String.append_assoc]
  | case4 c rest acc hne ih =>
    rw [compileGen, directRender] <;> try assumption

/-! ### Claim C6. -/

/-- C6 (confirmed): the user timestamp placeholder defaults to the
strftime-style pattern `%Y-%m-%d %H:%M:%S.%f`, also when an empty
pattern is supplied; each `%f` renders (for a sub-second microseconds
value) as exactly six zero-padded decimal digits whose value is the
microseconds value; and the token list precompiled by the generator
renders the same bytes as interpreting the pattern directly, with every
`%f`-free chunk going through the platform `strftime`. -/
theorem c6_timestamp_pattern_precompiled :
    timestampUserDefault.pattern = "%Y-%m-%d %H:%M:%S.%f" ∧
    (∀ spec : String,
      (timestampUserMk "" spec).pattern = "%Y-%m-%d %H:%M:%S.%f") ∧
    (∀ u : Nat, u < 1000000 →
      (pad6 u).length = 6 ∧
      (∀ c ∈ (pad6 u).data, c.isDigit = true) ∧
      digitsVal (pad6 u).data = u) ∧
    (∀ (strf : String → String) (u : Nat) (pattern spec : String),
      strf "" = "" →
      renderTokens strf u (timestampUserMk pattern spec).generator
        = directRender strf u
            (if pattern = "" then defaultTimestampPattern else pattern).data
            "") := by
  refine ⟨rfl, fun spec => rfl, ?_, ?_⟩
  · intro u hu
    have hlen : (decDigits u).length ≤ 6 :=
      decDigitsAux_len (u + 1) u 6 (by omega) (by omega) (by omega)
    refine ⟨?_, ?_, ?_⟩
    · simp only [pad6, String.length]
      simp
      omega
    · intro c hc
      simp only [pad6] at hc
      rcases List.mem_append.mp hc with hc | hc
      · have : c = '0' := List.eq_of_mem_replicate hc
        subst this
        decide
      · exact decDigitsAux_digits (u + 1) u (by omega) c hc
    · simp only [pad6]
      rw [digitsVal_zeros]
      exact decDigitsAux_val (u + 1) u (by omega)
  · intro strf u pattern spec hs
    simp only [timestampUserMk]
    exact renderTokens_compileGen strf u hs _ ""

/-- C6 witness: the parts with hypotheses applied at a concrete
microseconds value and a concrete pattern, under the identity in place
of the platform `strftime`. -/
theorem c6_witness :
    ((pad6 630953).length = 6 ∧
      (∀ c ∈ (pad6 630953).data, c.isDigit = true) ∧
      digitsVal (pad6 630953).data = 630953) ∧
    renderTokens (fun s => s) 630953
        (timestampUserMk "%H:%M:%S.%f" "{}").generator
      = directRender (fun s => s) 630953
          (if ("%H:%M:%S.%f" : String) = "" then defaultTimestampPattern
            else "%H:%M:%S.%f").data "" :=
  ⟨c6_timestamp_pattern_precompiled.2.2.1 630953 (by decide),
   c6_timestamp_pattern_precompiled.2.2.2 (fun s => s) 630953 "%H:%M:%S.%f" "{}"
     rfl⟩

/-- C9 witness: a verbose logger with threshold 3 opens a valid record
at level 5. -/
theorem c9_witness :
    ((openRecordVerbose (mkVerbose 3) 5 []).record.isSome = true ↔ (3 : Int) ≤ 5) ∧
    (openRecordVerbose (mkVerbose 3) 5 []).record.isSome = true :=
  ⟨c9_verbose_default_filter_threshold (mkVerbose 3) 3 5 [] rfl rfl,
   (c9_verbose_default_filter_threshold (mkVerbose 3) 3 5 [] rfl rfl).2 (by decide)⟩

/-! ### Claim C10. -/

/-- C10 (confirmed): a `composite_logger_t` is constructed enabled; while
`enabled(false)` is in force every `open_record` call returns the invalid
record without evaluating the filter predicate and without populating any
attribute set; `enabled(true)` re-enables it, after which `open_record`
evaluates the filter again. -/
theorem c10_enabled_gate :
    (∀ (α : Type) (f : AttrSet → α → Bool), (mkComposite f).enabled = true) ∧
    (∀ (α : Type) (lg : CompositeV0 α) (pop : AttrSet → α → AttrSet)
      (external : AttrSet) (args : α),
      openRecordWith (setEnabled lg false) pop external args
        = ⟨none, false, false⟩) ∧
    (∀ (α : Type) (lg : CompositeV0 α), (setEnabled lg true).enabled = true) ∧
    (∀ (α : Type) (lg : CompositeV0 α) (pop : AttrSet → α → AttrSet)
      (external : AttrSet) (args : α),
      (openRecordWith (setEnabled (setEnabled lg false) true) pop external
          args).filterEvaluated = true) := by
  refine ⟨fun α f => rfl, fun α lg pop external args => rfl, fun α lg => rfl,
    fun α lg pop external args => ?_⟩
  simp only [openRecordWith, setEnabled]
  rcases h : lg.filter (combinedView external lg.scopedCtx) args <;> simp [h]

/-! ### Claim C7. -/

/-- C7 (confirmed against the spec-modelled formatter): the default JSON
formatter emits `timestamp` as the integer number of microseconds since
epoch (a record at wall-clock second 1449859055 serializes with
`"timestamp":1449859055000000`), `message` as a string, `severity` and
`process` as integers and `thread` as an integer or hex-string id; the
spec's concrete scenario serializes to its expected bytes. -/
theorem c7_json_intrinsic_field_types :
    (∀ r : RecordJ,
      (jsonFormatDefault r).lookup "message" = some (.jstr r.message) ∧
      (jsonFormatDefault r).lookup "severity" = some (.jint r.severity) ∧
      (jsonFormatDefault r).lookup "timestamp"
        = some (.jint (usecSinceEpoch r)) ∧
      usecSinceEpoch r = r.timestampSec * 1000000 + r.timestampUsec ∧
      (jsonFormatDefault r).lookup "process" = some (.jint r.pid) ∧
      (jsonFormatDefault r).lookup "thread" = some (threadLeaf r.tid)) ∧
    (∀ t : ThreadId,
      (∃ n, threadLeaf t = .jint n) ∨ (∃ s, threadLeaf t = .jstr s)) ∧
    serObj (jsonFormatDefault
        ⟨"fatal error, please try again", 3, 1449859055, 0, 12345,
          .inr "0xdead", [("key", .vsint 42), ("ip", .vstr "[::]")]⟩)
      = "\x7b\"message\":\"fatal error, please try again\",\"severity\":3,\"timestamp\":1449859055000000,\"process\":12345,\"thread\":\"0xdead\",\"key\":42,\"ip\":\"[::]\"\x7d" := by
  refine ⟨?_, ?_, ?_⟩
  · intro r
    refine ⟨?_, ?_, ?_, rfl, ?_, ?_⟩ <;> simp [jsonFormatDefault, List.lookup]
  · intro t
    rcases t with n | s
    · exact Or.inl ⟨n, rfl⟩
    · exact Or.inr ⟨s, rfl⟩
  · rfl

end Blackhole
